import Mathlib

/-!
# Verification of the item CRUD Lambda (`src/app.py`)

Shallow embedding of the request-routing and validation core of the
repository: the five operations (`validate_item`, `create_item`, `get_item`,
`list_items`, `update_item`, `delete_item`) and the dispatcher
(`lambda_handler`), translated from `src/app.py`.

Modelling conventions:
* Python/JSON values are the inductive `Value`; a Python `dict` is a `VDict`
  over an association list (first binding wins on lookup, assignment replaces
  in place, mirroring CPython insertion-order semantics).
* Python exceptions are `PyError`; fallible code returns `Except PyError`.
* The DynamoDB table is `DB`: a string-keyed association list of items plus a
  trace of the store calls issued (so "fails before any store access" is the
  provable statement "the trace is unchanged").
* The two external effect sources are passed as parameters: `g` is the
  freshly generated uuid string, and `parse : String → Option Value` is the
  (out-of-scope) JSON text parser backing `json.loads`; `json_loads` wraps it
  with the stdlib's error behaviour (non-`str` input raises `TypeError`, not
  `JSONDecodeError`).
-/

/-- Python/JSON values as passed around by `src/app.py`. -/
inductive Value where
  | VNull : Value
  | VBool : Bool → Value
  | VInt : Int → Value
  | VStr : String → Value
  | VList : List Value → Value
  | VDict : List (String × Value) → Value

open Value

/-- Python exception classes raised by the code in `src/app.py`. -/
inductive PyError where
  | AttributeError : String → PyError
  | ValueError : String → PyError
  | TypeError : String → PyError
  | KeyError : String → PyError
  | JSONDecodeError : String → PyError

/-- First binding for a key in an association list (Python `d[k]` / `k in d`). -/
def alistGet : List (String × Value) → String → Option Value
  | [], _ => none
  | (k', v) :: rest, k => if k' = k then some v else alistGet rest k

/-- Python `k in d` for a dict. -/
def alistHasKey (d : List (String × Value)) (k : String) : Bool :=
  (alistGet d k).isSome

/-- Python dict assignment `d[k] = v`: replaces in place, else appends. -/
def alistInsert : List (String × Value) → String → Value → List (String × Value)
  | [], k, v => [(k, v)]
  | (k', v') :: rest, k, v =>
      if k' = k then (k, v) :: rest else (k', v') :: alistInsert rest k v

/-- Insert each binding of `kvs` in order (Python `{**d, **kvs}` tail). -/
def alistInsertAll (d : List (String × Value)) (kvs : List (String × Value)) :
    List (String × Value) :=
  kvs.foldl (fun a kv => alistInsert a kv.1 kv.2) d

/-- Python `{'id': item_id, **body}` as built in `create_item`/`update_item`:
the literal `'id'` binding first, then every binding of `body` inserted over
it — so a body-supplied `'id'` wins. -/
def mkItem (item_id : String) (body : List (String × Value)) :
    List (String × Value) :=
  alistInsertAll [("id", VStr item_id)] body

/-- Python truthiness for the values of this model (`if x:`). -/
def pyTruthy : Value → Bool
  | VNull => false
  | VBool b => b
  | VInt n => n != 0
  | VStr s => s ≠ ""
  | VList xs => !xs.isEmpty
  | VDict d => !d.isEmpty

/-- Python `isinstance(x, dict)`. -/
def isDict : Value → Bool
  | VDict _ => true
  | _ => false

/-- Python `isinstance(x, str)`. -/
def isStr : Value → Bool
  | VStr _ => true
  | _ => false

/-- Python `isinstance(x, int)`: `bool` is a subclass of `int` in Python. -/
def pyIsInt : Value → Bool
  | VInt _ => true
  | VBool _ => true
  | _ => false

/-- Numeric value of a Python int-like value (`True == 1`, `False == 0`). -/
def pyToInt : Value → Int
  | VInt n => n
  | VBool b => if b then 1 else 0
  | _ => 0

/-- The store calls `src/app.py` issues against the DynamoDB table. -/
inductive StoreOp where
  | opPut : List (String × Value) → StoreOp
  | opGet : String → StoreOp
  | opDelete : String → StoreOp
  | opScan : Int → Option String → StoreOp

/-- The DynamoDB table: items keyed by their string `id`, plus the trace of
store calls issued so far. -/
structure DB where
  items : List (String × List (String × Value))
  trace : List StoreOp

def dbEmpty : DB := { items := [], trace := [] }

/-- Point-read of the backing item list. -/
def lookupItems : List (String × List (String × Value)) → String →
    Option (List (String × Value))
  | [], _ => none
  | (k, it) :: rest, s => if k = s then some it else lookupItems rest s

/-- Replace the item stored at `s`, else append (DynamoDB `put_item` upsert). -/
def putItems : List (String × List (String × Value)) → String →
    List (String × Value) → List (String × List (String × Value))
  | [], s, item => [(s, item)]
  | (k, it) :: rest, s, item =>
      if k = s then (s, item) :: rest else (k, it) :: putItems rest s item

/-- Remove the item stored at `s` (DynamoDB `delete_item`). -/
def removeItems : List (String × List (String × Value)) → String →
    List (String × List (String × Value))
  | [], _ => []
  | (k, it) :: rest, s => if k = s then rest else (k, it) :: removeItems rest s

/-- `table.get_item(Key={'id': s})` followed by `response.get('Item')`. -/
def storeGet (db : DB) (s : String) : Option (List (String × Value)) × DB :=
  (lookupItems db.items s, { db with trace := db.trace ++ [StoreOp.opGet s] })

/-- `table.put_item(Item=item)`: keyed by the item's `'id'` attribute (the key
schema of the table; every item built by this code carries a string `'id'`). -/
def storePut (db : DB) (item : List (String × Value)) : DB :=
  { items :=
      match alistGet item "id" with
      | some (VStr s) => putItems db.items s item
      | _ => db.items
    trace := db.trace ++ [StoreOp.opPut item] }

/-- `table.delete_item(Key={'id': s})`. -/
def storeDelete (db : DB) (s : String) : DB :=
  { items := removeItems db.items s
    trace := db.trace ++ [StoreOp.opDelete s] }

/-- `table.scan(Limit=limit[, ExclusiveStartKey=cursor])`: the page after the
cursor, and the last evaluated key when more items remain. -/
def scanItems (items : List (String × List (String × Value)))
    (startId : Option String) (limit : Nat) :
    List (String × List (String × Value)) × Option String :=
  let rest :=
    match startId with
    | none => items
    | some k =>
        (items.dropWhile
          (fun (p : String × List (String × Value)) => p.1 != k)).drop 1
  let page := rest.take limit
  let lastKey :=
    if page.length < rest.length then (page.getLast?).map Prod.fst else none
  (page, lastKey)

def storeScan (db : DB) (limit : Int) (startId : Option String) :
    (List (String × List (String × Value)) × Option String) × DB :=
  (scanItems db.items startId limit.toNat,
   { db with trace := db.trace ++ [StoreOp.opScan limit startId] })

/-- `validate_item(item)` from `src/app.py`: `AttributeError` unless the input
is a dict, else `all(field in item for field in ['name', 'description'])`. -/
def validate_item (item : Value) : Except PyError Bool :=
  match item with
  | VDict d => Except.ok (alistHasKey d "name" && alistHasKey d "description")
  | _ => Except.error (PyError.AttributeError "Input must be a dictionary")

/-- `create_item(body)` from `src/app.py`; `g` is the generated uuid string. -/
def create_item (db : DB) (g : String) (body : Value) :
    Except PyError (List (String × Value)) × DB :=
  match body with
  | VDict bd =>
      match validate_item (VDict bd) with
      | Except.error e => (Except.error e, db)
      | Except.ok false =>
          (Except.error (PyError.ValueError
            "Invalid item data. Required fields: name, description"), db)
      | Except.ok true =>
          let item := mkItem g bd
          (Except.ok item, storePut db item)
  | _ => (Except.error (PyError.AttributeError "Item data must be a dictionary"), db)

/-- `get_item(item_id)` from `src/app.py`. -/
def get_item (db : DB) (item_id : Value) :
    Except PyError (Option (List (String × Value))) × DB :=
  match item_id with
  | VStr s =>
      let r := storeGet db s
      (Except.ok r.1, r.2)
  | _ => (Except.error (PyError.TypeError "Item ID must be a string"), db)

/-- `list_items(limit, last_evaluated_key)` from `src/app.py`. -/
def list_items (db : DB) (limit : Value)
    (last_evaluated_key : Option (List (String × Value))) :
    Except PyError (List (String × Value)) × DB :=
  if !pyIsInt limit then
    (Except.error (PyError.TypeError "limit must be an integer"), db)
  else if pyToInt limit ≤ 0 then
    (Except.error (PyError.ValueError "limit must be greater than 0"), db)
  else
    -- `if last_evaluated_key:` — the cursor is passed only when truthy
    let startId :=
      match last_evaluated_key with
      | some c => if c.isEmpty then none else
          match alistGet c "id" with
          | some (VStr s) => some s
          | _ => none
      | none => none
    let r := storeScan db (pyToInt limit) startId
    (Except.ok
      [("items", VList (r.1.1.map (fun p => VDict p.2))),
       ("last_evaluated_key",
        match r.1.2 with
        | some s => VDict [("id", VStr s)]
        | none => VNull)], r.2)

/-- `update_item(item_id, body)` from `src/app.py`. -/
def update_item (db : DB) (item_id : Value) (body : Value) :
    Except PyError (List (String × Value)) × DB :=
  match item_id with
  | VStr s =>
      match body with
      | VDict bd =>
          match validate_item (VDict bd) with
          | Except.error e => (Except.error e, db)
          | Except.ok false =>
              (Except.error (PyError.ValueError "Invalid item data"), db)
          | Except.ok true =>
              let item := mkItem s bd
              (Except.ok item, storePut db item)
      | _ => (Except.error (PyError.AttributeError "Body must be a dictionary"), db)
  | _ => (Except.error (PyError.AttributeError "Item ID must be a string"), db)

/-- `delete_item(item_id)` from `src/app.py`: type check, non-empty check,
point-read (`if existing_item:` — Python truthiness, so an empty dict also
counts as absent), then delete or `ValueError`. -/
def delete_item (db : DB) (item_id : Value) : Except PyError Unit × DB :=
  match item_id with
  | VStr s =>
      if s = "" then
        (Except.error (PyError.ValueError "Item ID is required (non-empty)."), db)
      else
        match get_item db (VStr s) with
        | (Except.error e, db1) => (Except.error e, db1)
        | (Except.ok existing, db1) =>
            match existing with
            | some item =>
                if item.isEmpty then
                  (Except.error (PyError.ValueError
                    ("Item with id " ++ s ++ " not found")), db1)
                else (Except.ok (), storeDelete db1 s)
            | none =>
                (Except.error (PyError.ValueError
                  ("Item with id " ++ s ++ " not found")), db1)
  | _ => (Except.error (PyError.AttributeError "Item ID must be a string"), db)

/-! ## The request dispatcher (`lambda_handler`) -/

/-- An HTTP-style response envelope `{'statusCode': ..., 'body': ...}`; the
body is kept as the `Value` handed to `json.dumps` (text framing is the
out-of-scope transport layer), and `none` when the Python dict has no
`'body'` key (the 204 response). -/
structure Response where
  statusCode : Nat
  body : Option Value

/-- `json.dumps({'message': m})`'s payload. -/
def msgBody (m : String) : Value := VDict [("message", VStr m)]

/-- Python subscript `d[k]`: `KeyError` when the key is absent. The events
reaching the handler are dicts; subscripting any other value is a
`TypeError` in Python. -/
def dictGetKE (v : Value) (k : String) : Except PyError Value :=
  match v with
  | VDict d =>
      match alistGet d k with
      | some x => Except.ok x
      | none => Except.error (PyError.KeyError k)
  | _ => Except.error (PyError.TypeError "value is not subscriptable")

/-- `event.get('pathParameters', {})` (the handler only reaches this once
`event` has been subscripted successfully, hence is a dict). -/
def dictGetD (v : Value) (k : String) (dflt : Value) : Value :=
  match v with
  | VDict d => (alistGet d k).getD dflt
  | _ => dflt

/-- `json.loads` (Python stdlib, external to the repository): on a `str` it
defers to the text parser `parse` and raises `JSONDecodeError` when parsing
fails; on any non-`str` input it raises `TypeError`, not `JSONDecodeError`. -/
def json_loads (parse : String → Option Value) (v : Value) :
    Except PyError Value :=
  match v with
  | VStr s =>
      match parse s with
      | some x => Except.ok x
      | none => Except.error (PyError.JSONDecodeError "Expecting value")
  | _ => Except.error
      (PyError.TypeError "the JSON object must be str, bytes or bytearray")

/-- Python `==` between the method value and a method-name literal
(`http_method == 'POST'`): only equal strings compare equal. -/
def isMethod (v : Value) (m : String) : Bool :=
  match v with
  | VStr s => s = m
  | _ => false

/-- `'id'` occurs as a contiguous substring (Python `'id' in s` for `str`). -/
def strContainsId (s : String) : Bool :=
  (s.toList.zip s.toList.tail).any (fun p => p.1 == 'i' && p.2 == 'd')

/-- Python `'id' in x` for the container types of this model; membership on a
non-container raises `TypeError`. -/
def pyContainsId : Value → Except PyError Bool
  | VDict d => Except.ok (alistHasKey d "id")
  | VStr s => Except.ok (strContainsId s)
  | VList xs => Except.ok (xs.any (fun v =>
      match v with
      | VStr s => s = "id"
      | _ => false))
  | _ => Except.error (PyError.TypeError "argument is not a container")

/-- The guard `path_parameters and 'id' in path_parameters` (short-circuit:
membership is only evaluated when `path_parameters` is truthy). -/
def hasPathId (pp : Value) : Except PyError Bool :=
  if pyTruthy pp then pyContainsId pp else Except.ok false

/-- The `POST` arm of the dispatcher (inside the `try`): decode the body —
only `JSONDecodeError` is converted to 400 "Invalid JSON" here — then
`create_item`, 201 on success. -/
def handlePOST (parse : String → Option Value) (g : String) (db : DB)
    (event : Value) : Except PyError Response × DB :=
  match dictGetKE event "body" with
  | Except.error e => (Except.error e, db)
  | Except.ok raw =>
      match json_loads parse raw with
      | Except.error (PyError.JSONDecodeError _) =>
          (Except.ok ⟨400, some (msgBody "Invalid JSON")⟩, db)
      | Except.error e => (Except.error e, db)
      | Except.ok body =>
          match create_item db g body with
          | (Except.error e, db1) => (Except.error e, db1)
          | (Except.ok item, db1) =>
              (Except.ok ⟨201, some (VDict item)⟩, db1)

/-- The `GET` arm: point-read when the path carries an id (`if not item:` —
truthiness — maps absence to 404), else `list_items()` with defaults. -/
def handleGET (db : DB) (pp : Value) : Except PyError Response × DB :=
  match hasPathId pp with
  | Except.error e => (Except.error e, db)
  | Except.ok true =>
      match dictGetKE pp "id" with
      | Except.error e => (Except.error e, db)
      | Except.ok item_id =>
          match get_item db item_id with
          | (Except.error e, db1) => (Except.error e, db1)
          | (Except.ok r, db1) =>
              match r with
              | none => (Except.ok ⟨404, some (msgBody "Item not found")⟩, db1)
              | some item =>
                  if item.isEmpty then
                    (Except.ok ⟨404, some (msgBody "Item not found")⟩, db1)
                  else (Except.ok ⟨200, some (VDict item)⟩, db1)
  | Except.ok false =>
      match list_items db (VInt 100) none with
      | (Except.error e, db1) => (Except.error e, db1)
      | (Except.ok res, db1) => (Except.ok ⟨200, some (VDict res)⟩, db1)

/-- The `PUT` arm: 400 "Missing item ID" before any body access when the path
has no id; then decode, `update_item`, and the defensive `if not item:` 404. -/
def handlePUT (parse : String → Option Value) (db : DB) (event : Value)
    (pp : Value) : Except PyError Response × DB :=
  match hasPathId pp with
  | Except.error e => (Except.error e, db)
  | Except.ok false => (Except.ok ⟨400, some (msgBody "Missing item ID")⟩, db)
  | Except.ok true =>
      match dictGetKE event "body" with
      | Except.error e => (Except.error e, db)
      | Except.ok raw =>
          match json_loads parse raw with
          | Except.error (PyError.JSONDecodeError _) =>
              (Except.ok ⟨400, some (msgBody "Invalid JSON")⟩, db)
          | Except.error e => (Except.error e, db)
          | Except.ok body =>
              match dictGetKE pp "id" with
              | Except.error e => (Except.error e, db)
              | Except.ok item_id =>
                  match update_item db item_id body with
                  | (Except.error e, db1) => (Except.error e, db1)
                  | (Except.ok item, db1) =>
                      if item.isEmpty then
                        (Except.ok ⟨404, some (msgBody "Item not found")⟩, db1)
                      else (Except.ok ⟨200, some (VDict item)⟩, db1)

/-- The `DELETE` arm: 400 "Missing item ID" without an id, else `delete_item`
and a body-less 204. -/
def handleDELETE (db : DB) (pp : Value) : Except PyError Response × DB :=
  match hasPathId pp with
  | Except.error e => (Except.error e, db)
  | Except.ok false => (Except.ok ⟨400, some (msgBody "Missing item ID")⟩, db)
  | Except.ok true =>
      match dictGetKE pp "id" with
      | Except.error e => (Except.error e, db)
      | Except.ok item_id =>
          match delete_item db item_id with
          | (Except.error e, db1) => (Except.error e, db1)
          | (Except.ok _, db1) => (Except.ok ⟨204, none⟩, db1)

/-- The body of `lambda_handler`'s `try` block: dispatch on the method. -/
def handleTry (parse : String → Option Value) (g : String) (db : DB)
    (event : Value) (m : Value) (pp : Value) : Except PyError Response × DB :=
  if isMethod m "POST" then handlePOST parse g db event
  else if isMethod m "GET" then handleGET db pp
  else if isMethod m "PUT" then handlePUT parse db event pp
  else if isMethod m "DELETE" then handleDELETE db pp
  else (Except.ok ⟨405, some (msgBody "Method not allowed")⟩, db)

/-- The `except` clauses of `lambda_handler`: `JSONDecodeError` → 400
"Invalid JSON", `ValueError` → 400 with the error's own message, anything
else → 500 "Internal server error". -/
def translateError (r : Except PyError Response) : Response :=
  match r with
  | Except.ok resp => resp
  | Except.error (PyError.JSONDecodeError _) => ⟨400, some (msgBody "Invalid JSON")⟩
  | Except.error (PyError.ValueError s) => ⟨400, some (msgBody s)⟩
  | Except.error _ => ⟨500, some (msgBody "Internal server error")⟩

/-- `lambda_handler(event, context)` from `src/app.py`. The subscript
`event['httpMethod']` happens before the `try` block, so its `KeyError`
escapes as a raised exception (`Except.error`) rather than a response. -/
def lambda_handler (parse : String → Option Value) (g : String) (db : DB)
    (event : Value) : Except PyError (Response × DB) :=
  match dictGetKE event "httpMethod" with
  | Except.error e => Except.error e
  | Except.ok m =>
      let pp := dictGetD event "pathParameters" (VDict [])
      let r := handleTry parse g db event m pp
      Except.ok (translateError r.1, r.2)

/-- Event dict as API Gateway delivers it: a method, an optional
`pathParameters` entry and an optional `body` entry. -/
def mkEvent (method : String) (pp : Option Value) (body : Option Value) :
    Value :=
  VDict ([("httpMethod", VStr method)]
    ++ (match pp with | some p => [("pathParameters", p)] | none => [])
    ++ (match body with | some b => [("body", b)] | none => []))

/-! ## Association-list lemmas -/

theorem alistGet_insert (a : List (String × Value)) (k : String) (v : Value)
    (k' : String) :
    alistGet (alistInsert a k v) k' = if k = k' then some v else alistGet a k' := by
  induction a with
  | nil => simp [alistInsert, alistGet]
  | cons hd tl ih =>
      obtain ⟨k0, v0⟩ := hd
      by_cases h0 : k0 = k
      · subst h0
        simp only [alistInsert, if_pos rfl, alistGet]
        by_cases h1 : k0 = k' <;> simp [h1]
      · simp only [alistInsert, if_neg h0, alistGet, ih]
        by_cases h1 : k0 = k' <;> by_cases h2 : k = k' <;> simp_all

theorem alistHasKey_nil (k : String) : alistHasKey [] k = false := rfl

theorem alistHasKey_cons (k0 : String) (v0 : Value) (rest : List (String × Value))
    (k : String) :
    alistHasKey ((k0, v0) :: rest) k =
      if k0 = k then true else alistHasKey rest k := by
  by_cases h : k0 = k <;> simp [alistHasKey, alistGet, h]

theorem get_insertAll_of_not_hasKey (kvs : List (String × Value))
    (a : List (String × Value)) (k : String) (h : alistHasKey kvs k = false) :
    alistGet (alistInsertAll a kvs) k = alistGet a k := by
  induction kvs generalizing a with
  | nil => rfl
  | cons hd tl ih =>
      obtain ⟨k0, v0⟩ := hd
      rw [alistHasKey_cons] at h
      by_cases h0 : k0 = k
      · simp [h0] at h
      · simp [h0] at h
        show alistGet (alistInsertAll (alistInsert a k0 v0) tl) k = alistGet a k
        rw [ih _ h, alistGet_insert, if_neg h0]

theorem hasKey_mem_keys (d : List (String × Value)) (k : String) :
    alistHasKey d k = true ↔ k ∈ d.map Prod.fst := by
  induction d with
  | nil => simp [alistHasKey, alistGet]
  | cons hd tl ih =>
      obtain ⟨k0, v0⟩ := hd
      rw [alistHasKey_cons]
      by_cases h0 : k0 = k
      · simp [h0]
      · have hne : ¬ k = k0 := fun he => h0 he.symm
        simp [h0, hne, ih]

theorem get_insertAll_of_hasKey (kvs : List (String × Value))
    (a : List (String × Value)) (k : String)
    (hnd : (kvs.map Prod.fst).Nodup) (h : alistHasKey kvs k = true) :
    alistGet (alistInsertAll a kvs) k = alistGet kvs k := by
  induction kvs generalizing a with
  | nil => simp [alistHasKey, alistGet] at h
  | cons hd tl ih =>
      obtain ⟨k0, v0⟩ := hd
      simp only [List.map_cons, List.nodup_cons] at hnd
      rw [alistHasKey_cons] at h
      show alistGet (alistInsertAll (alistInsert a k0 v0) tl) k =
        alistGet ((k0, v0) :: tl) k
      by_cases h0 : k0 = k
      · subst h0
        have htl : alistHasKey tl k0 = false := by
          by_contra hc
          simp only [Bool.not_eq_false] at hc
          exact hnd.1 ((hasKey_mem_keys tl k0).mp hc)
        rw [get_insertAll_of_not_hasKey tl _ k0 htl, alistGet_insert]
        simp [alistGet]
      · simp [h0] at h
        rw [ih _ hnd.2 h]
        simp [alistGet, h0]

theorem hasKey_insertAll_of (kvs : List (String × Value))
    (a : List (String × Value)) (k : String) (h : alistHasKey a k = true) :
    alistHasKey (alistInsertAll a kvs) k = true := by
  induction kvs generalizing a with
  | nil => exact h
  | cons hd tl ih =>
      obtain ⟨k0, v0⟩ := hd
      show alistHasKey (alistInsertAll (alistInsert a k0 v0) tl) k = true
      apply ih
      unfold alistHasKey
      rw [alistGet_insert]
      by_cases h0 : k0 = k
      · simp [h0]
      · simp [h0]
        exact h

/-- Every item built by `create_item`/`update_item` carries an `'id'` key. -/
theorem mkItem_hasKey_id (x : String) (bd : List (String × Value)) :
    alistHasKey (mkItem x bd) "id" = true :=
  hasKey_insertAll_of bd [("id", VStr x)] "id" rfl

/-- Items built by `create_item`/`update_item` are non-empty dicts. -/
theorem mkItem_isEmpty (x : String) (bd : List (String × Value)) :
    (mkItem x bd).isEmpty = false := by
  have h := mkItem_hasKey_id x bd
  cases hm : mkItem x bd with
  | nil => rw [hm] at h; simp [alistHasKey, alistGet] at h
  | cons hd tl => simp [List.isEmpty]

/-- The `'id'` of a built item: the body's own `'id'` wins when present
(Python merge order `{'id': x, **body}`), else the supplied `x`. -/
theorem mkItem_get_id (x : String) (bd : List (String × Value))
    (hnd : (bd.map Prod.fst).Nodup) :
    alistGet (mkItem x bd) "id" =
      if alistHasKey bd "id" then alistGet bd "id" else some (VStr x) := by
  by_cases h : alistHasKey bd "id"
  · rw [if_pos h]
    exact get_insertAll_of_hasKey bd _ "id" hnd h
  · rw [if_neg h]
    show alistGet (alistInsertAll [("id", VStr x)] bd) "id" = some (VStr x)
    rw [get_insertAll_of_not_hasKey bd _ "id" (by simpa using h)]
    rfl

/-! ## Claim theorems -/

/-- C1, counterexample: the claim says a body-supplied `'id'` is overwritten
by the generated (resp. path) id. In `{'id': item_id, **body}` the body is
spread *after* the literal `'id'` binding, so the body's `'id'` wins: with
body `{'name': 'n', 'description': 'd', 'id': 'client-id'}`, `create_item`
returns and persists an item whose `'id'` is `'client-id'`, not the generated
`'generated-id'`, and `update_item` likewise ignores the path id. -/
theorem C1_counterexample :
    (create_item dbEmpty "generated-id"
        (VDict [("name", VStr "n"), ("description", VStr "d"),
                ("id", VStr "client-id")])).1 =
      Except.ok [("id", VStr "client-id"), ("name", VStr "n"),
                 ("description", VStr "d")] ∧
    (update_item dbEmpty (VStr "path-id")
        (VDict [("name", VStr "n"), ("description", VStr "d"),
                ("id", VStr "client-id")])).1 =
      Except.ok [("id", VStr "client-id"), ("name", VStr "n"),
                 ("description", VStr "d")] ∧
    alistGet [("id", VStr "client-id"), ("name", VStr "n"),
              ("description", VStr "d")] "id" = some (VStr "client-id") ∧
    VStr "client-id" ≠ VStr "generated-id" ∧
    VStr "client-id" ≠ VStr "path-id" := by
  refine ⟨rfl, rfl, rfl, ?_, ?_⟩ <;> simp

/-- C1, amended: on a valid body (with well-formed, duplicate-free dict keys)
`create_item` returns and persists exactly `mkItem g body`, and `update_item`
returns and persists exactly `mkItem id body`; the `'id'` field of the built
item is the *body's* own `'id'` when the body has one, and only otherwise the
generated (resp. path-supplied) identifier. -/
theorem C1_item_id_semantics (db : DB) (g i : String)
    (bd : List (String × Value))
    (hn : alistHasKey bd "name" = true)
    (hd : alistHasKey bd "description" = true)
    (hnd : (bd.map Prod.fst).Nodup) :
    create_item db g (VDict bd) =
      (Except.ok (mkItem g bd), storePut db (mkItem g bd)) ∧
    update_item db (VStr i) (VDict bd) =
      (Except.ok (mkItem i bd), storePut db (mkItem i bd)) ∧
    alistGet (mkItem g bd) "id" =
      (if alistHasKey bd "id" then alistGet bd "id" else some (VStr g)) ∧
    alistGet (mkItem i bd) "id" =
      (if alistHasKey bd "id" then alistGet bd "id" else some (VStr i)) := by
  refine ⟨?_, ?_, mkItem_get_id g bd hnd, mkItem_get_id i bd hnd⟩
  · simp [create_item, validate_item, hn, hd]
  · simp [update_item, validate_item, hn, hd]

/-- C1, witness for the amended theorem at a concrete valid body. -/
theorem C1_item_id_semantics_witness :
    create_item dbEmpty "gen" (VDict [("name", VStr "n"), ("description", VStr "d")]) =
      (Except.ok (mkItem "gen" [("name", VStr "n"), ("description", VStr "d")]),
       storePut dbEmpty (mkItem "gen" [("name", VStr "n"), ("description", VStr "d")])) ∧
    update_item dbEmpty (VStr "pid") (VDict [("name", VStr "n"), ("description", VStr "d")]) =
      (Except.ok (mkItem "pid" [("name", VStr "n"), ("description", VStr "d")]),
       storePut dbEmpty (mkItem "pid" [("name", VStr "n"), ("description", VStr "d")])) ∧
    alistGet (mkItem "gen" [("name", VStr "n"), ("description", VStr "d")]) "id" =
      (if alistHasKey [("name", VStr "n"), ("description", VStr "d")] "id"
       then alistGet [("name", VStr "n"), ("description", VStr "d")] "id"
       else some (VStr "gen")) ∧
    alistGet (mkItem "pid" [("name", VStr "n"), ("description", VStr "d")]) "id" =
      (if alistHasKey [("name", VStr "n"), ("description", VStr "d")] "id"
       then alistGet [("name", VStr "n"), ("description", VStr "d")] "id"
       else some (VStr "pid")) :=
  C1_item_id_semantics dbEmpty "gen" "pid"
    [("name", VStr "n"), ("description", VStr "d")] rfl rfl (by decide)

/-- C4: `validate_item` raises `AttributeError` (the `TypeMismatch` class) on
every non-dict input, and on a dict returns exactly "`'name'` present and
`'description'` present", with no constraint on the values. -/
theorem C4_validate_item_spec :
    (∀ v : Value, isDict v = false →
      validate_item v =
        Except.error (PyError.AttributeError "Input must be a dictionary")) ∧
    (∀ d : List (String × Value),
      validate_item (VDict d) =
        Except.ok (alistHasKey d "name" && alistHasKey d "description")) ∧
    (∀ d : List (String × Value),
      validate_item (VDict d) = Except.ok true ↔
        (alistHasKey d "name" = true ∧ alistHasKey d "description" = true)) := by
  refine ⟨?_, ?_, ?_⟩
  · intro v h
    cases v <;> simp [isDict] at h <;> rfl
  · intro d; rfl
  · intro d
    simp [validate_item, Bool.and_eq_true]

/-- C4, witness: a non-dict input raises; a dict with both keys and non-string
values validates to true. -/
theorem C4_witness :
    validate_item (VStr "x") =
      Except.error (PyError.AttributeError "Input must be a dictionary") ∧
    validate_item (VDict [("name", VNull), ("description", VInt 0)]) =
      Except.ok true :=
  ⟨C4_validate_item_spec.1 (VStr "x") rfl,
   (C4_validate_item_spec.2.2 [("name", VNull), ("description", VInt 0)]).mpr
     ⟨rfl, rfl⟩⟩

/-- C5: on a non-dict body, and on a dict body missing a required key,
`create_item` and `update_item` fail returning the database completely
unchanged — items *and* store-call trace — i.e. the failure happens before
any store call. -/
theorem C5_fail_fast (db : DB) (g i : String) (body : Value) :
    (isDict body = false →
      create_item db g body =
        (Except.error (PyError.AttributeError "Item data must be a dictionary"), db) ∧
      update_item db (VStr i) body =
        (Except.error (PyError.AttributeError "Body must be a dictionary"), db)) ∧
    (∀ bd, body = VDict bd →
      (alistHasKey bd "name" && alistHasKey bd "description") = false →
      create_item db g body =
        (Except.error (PyError.ValueError
          "Invalid item data. Required fields: name, description"), db) ∧
      update_item db (VStr i) body =
        (Except.error (PyError.ValueError "Invalid item data"), db)) := by
  constructor
  · intro h
    cases body <;> simp [isDict] at h <;> exact ⟨rfl, rfl⟩
  · rintro bd rfl hv
    constructor
    · simp [create_item, validate_item, hv]
    · simp [update_item, validate_item, hv]

/-- C5, witness: a string body and an empty dict body both fail with the
database untouched. -/
theorem C5_witness :
    create_item dbEmpty "gen" (VStr "oops") =
      (Except.error (PyError.AttributeError "Item data must be a dictionary"),
       dbEmpty) ∧
    update_item dbEmpty (VStr "pid") (VDict []) =
      (Except.error (PyError.ValueError "Invalid item data"), dbEmpty) :=
  ⟨((C5_fail_fast dbEmpty "gen" "pid" (VStr "oops")).1 rfl).1,
   ((C5_fail_fast dbEmpty "gen" "pid" (VDict [])).2 [] rfl rfl).2⟩

/-- C8: `list_items` raises `TypeError` on a non-integer limit and
`ValueError` on a non-positive integer limit, in both cases with the database
(items and store-call trace) unchanged — so before any scan is issued. -/
theorem C8_list_items_checks (db : DB) (limit : Value)
    (cur : Option (List (String × Value))) :
    (pyIsInt limit = false →
      list_items db limit cur =
        (Except.error (PyError.TypeError "limit must be an integer"), db)) ∧
    (pyIsInt limit = true → pyToInt limit ≤ 0 →
      list_items db limit cur =
        (Except.error (PyError.ValueError "limit must be greater than 0"), db)) := by
  constructor
  · intro h; simp [list_items, h]
  · intro h1 h2; simp [list_items, h1, h2]

/-- C8, witness: a string limit and limit 0. -/
theorem C8_witness :
    list_items dbEmpty (VStr "ten") none =
      (Except.error (PyError.TypeError "limit must be an integer"), dbEmpty) ∧
    list_items dbEmpty (VInt 0) none =
      (Except.error (PyError.ValueError "limit must be greater than 0"), dbEmpty) :=
  ⟨(C8_list_items_checks dbEmpty (VStr "ten") none).1 rfl,
   (C8_list_items_checks dbEmpty (VInt 0) none).2 rfl (by decide)⟩

/-! ## Dispatcher lemmas -/

/-- A concrete text parser that accepts nothing (used as a witness input). -/
def parseNone : String → Option Value := fun _ => none

/-- A concrete text parser recognising the few JSON texts the witnesses use. -/
def parseDemo : String → Option Value := fun s =>
  if s = "[1]" then some (VList [VInt 1])
  else if s = "{}" then some (VDict [])
  else none

theorem mkEvent_method (m : String) (pp body : Option Value) :
    dictGetKE (mkEvent m pp body) "httpMethod" = Except.ok (VStr m) := by
  cases pp <;> cases body <;> simp [mkEvent, dictGetKE, alistGet]

theorem mkEvent_pathParameters (m : String) (pp body : Option Value) :
    dictGetD (mkEvent m pp body) "pathParameters" (VDict []) =
      pp.getD (VDict []) := by
  cases pp <;> cases body <;> simp [mkEvent, dictGetD, alistGet]

theorem mkEvent_body (m : String) (pp : Option Value) (body : Option Value) :
    dictGetKE (mkEvent m pp body) "body" =
      (match body with
       | some b => Except.ok b
       | none => Except.error (PyError.KeyError "body")) := by
  cases pp <;> cases body <;> simp [mkEvent, dictGetKE, alistGet]

/-- The top-level `except` clauses never produce a 404: a raised error maps to
400 (`JSONDecodeError`/`ValueError`) or 500 (everything else). -/
theorem translateError_error_ne_404 (e : PyError) :
    (translateError (Except.error e)).statusCode ≠ 404 := by
  cases e <;> simp [translateError]

/-- `path parameters lack an id`: absent, or a dict without the `'id'` key, or
any falsy value (the dispatcher's guard short-circuits on those). -/
def ppLacksId : Option Value → Bool
  | none => true
  | some (VDict d) => !(alistHasKey d "id")
  | some v => !(pyTruthy v)

theorem hasPathId_of_lacks (pp : Option Value) (h : ppLacksId pp = true) :
    hasPathId (pp.getD (VDict [])) = Except.ok false := by
  cases pp with
  | none => rfl
  | some v =>
      cases v with
      | VNull => rfl
      | VBool b =>
          simp [ppLacksId, pyTruthy] at h
          simp [hasPathId, pyTruthy, h]
      | VInt n =>
          simp [ppLacksId, pyTruthy] at h
          simp [hasPathId, pyTruthy, h]
      | VStr s =>
          simp [ppLacksId, pyTruthy] at h
          simp [hasPathId, pyTruthy, h]
      | VList xs =>
          simp [ppLacksId, pyTruthy] at h
          simp [hasPathId, pyTruthy, h]
      | VDict d =>
          simp [ppLacksId] at h
          simp [hasPathId, pyTruthy, pyContainsId, h]

/-- C2: deleting a non-empty id that the store does not hold raises
`ValueError` "Item with id {id} not found" (after exactly the one point-read),
and the dispatcher answers the corresponding DELETE request with status 400 —
not 404 — carrying that same message. -/
theorem C2_delete_absent (parse : String → Option Value) (g : String) (db : DB)
    (s : String) (hne : s ≠ "") (habs : lookupItems db.items s = none) :
    delete_item db (VStr s) =
      (Except.error (PyError.ValueError ("Item with id " ++ s ++ " not found")),
       { db with trace := db.trace ++ [StoreOp.opGet s] }) ∧
    lambda_handler parse g db
        (mkEvent "DELETE" (some (VDict [("id", VStr s)])) none) =
      Except.ok
        (⟨400, some (msgBody ("Item with id " ++ s ++ " not found"))⟩,
         { db with trace := db.trace ++ [StoreOp.opGet s] }) := by
  have hdel : delete_item db (VStr s) =
      (Except.error (PyError.ValueError ("Item with id " ++ s ++ " not found")),
       { db with trace := db.trace ++ [StoreOp.opGet s] }) := by
    simp [delete_item, get_item, storeGet, hne, habs]
  refine ⟨hdel, ?_⟩
  unfold lambda_handler
  rw [mkEvent_method, mkEvent_pathParameters]
  simp [handleTry, isMethod, handleDELETE, hasPathId, pyTruthy, pyContainsId,
    alistHasKey, alistGet, dictGetKE, hdel, translateError]

/-- C2, witness: deleting id "missing" from the empty store. -/
theorem C2_witness :
    delete_item dbEmpty (VStr "missing") =
      (Except.error (PyError.ValueError "Item with id missing not found"),
       { dbEmpty with trace := dbEmpty.trace ++ [StoreOp.opGet "missing"] }) ∧
    lambda_handler parseNone "g" dbEmpty
        (mkEvent "DELETE" (some (VDict [("id", VStr "missing")])) none) =
      Except.ok
        (⟨400, some (msgBody "Item with id missing not found")⟩,
         { dbEmpty with trace := dbEmpty.trace ++ [StoreOp.opGet "missing"] }) :=
  C2_delete_absent parseNone "g" dbEmpty "missing" (by decide) rfl

/-- C3, counterexample: the claim sends `TypeMismatch` failures of create to
400 with the failure's own message, but a POST whose valid-JSON body decodes
to the non-mapping `[1]` raises `AttributeError`, which the dispatcher's
generic handler turns into 500 "Internal server error", not 400. -/
theorem C3_counterexample :
    lambda_handler parseDemo "g" dbEmpty
        (mkEvent "POST" none (some (VStr "[1]"))) =
      Except.ok (⟨500, some (msgBody "Internal server error")⟩, dbEmpty) ∧
    (500 : Nat) ≠ 400 := by
  exact ⟨rfl, by decide⟩

/-- C3, amended: for a POST whose body text parses, an `InvalidInput`
(`ValueError`) failure of create is answered 400 with the failure's own
message, while a `TypeMismatch` (`AttributeError`, from a non-mapping decoded
body) is answered 500 "Internal server error". -/
theorem C3_post_error_mapping (parse : String → Option Value) (g : String)
    (db : DB) (s : String) (v : Value) (hp : parse s = some v) :
    (∀ bd, v = VDict bd →
      (alistHasKey bd "name" && alistHasKey bd "description") = false →
      lambda_handler parse g db (mkEvent "POST" none (some (VStr s))) =
        Except.ok (⟨400, some (msgBody
          "Invalid item data. Required fields: name, description")⟩, db)) ∧
    (isDict v = false →
      lambda_handler parse g db (mkEvent "POST" none (some (VStr s))) =
        Except.ok (⟨500, some (msgBody "Internal server error")⟩, db)) := by
  constructor
  · rintro bd rfl hv
    simp [lambda_handler, mkEvent_method, handleTry, isMethod, handlePOST,
      mkEvent_body, json_loads, hp, create_item, validate_item, hv,
      translateError]
  · intro hnd
    cases v <;> simp [isDict] at hnd <;>
      simp [lambda_handler, mkEvent_method, handleTry, isMethod, handlePOST,
        mkEvent_body, json_loads, hp, create_item, translateError]

/-- C3, witness: `{}` (a mapping missing both fields) gets 400 with create's
message; `[1]` (a non-mapping) gets 500. -/
theorem C3_witness :
    lambda_handler parseDemo "g" dbEmpty
        (mkEvent "POST" none (some (VStr "{}"))) =
      Except.ok (⟨400, some (msgBody
        "Invalid item data. Required fields: name, description")⟩, dbEmpty) ∧
    lambda_handler parseDemo "g" dbEmpty
        (mkEvent "POST" none (some (VStr "[1]"))) =
      Except.ok (⟨500, some (msgBody "Internal server error")⟩, dbEmpty) :=
  ⟨(C3_post_error_mapping parseDemo "g" dbEmpty "{}" (VDict []) rfl).1 [] rfl rfl,
   (C3_post_error_mapping parseDemo "g" dbEmpty "[1]" (VList [VInt 1]) rfl).2 rfl⟩

/-- C6: a PUT whose path parameters lack an id is answered 400
"Missing item ID" with the database untouched, for *every* body value
(present, absent, or garbage) and *every* JSON parser — the body is never
decoded. -/
theorem C6_put_missing_id (parse : String → Option Value) (g : String)
    (db : DB) (pp body : Option Value) (h : ppLacksId pp = true) :
    lambda_handler parse g db (mkEvent "PUT" pp body) =
      Except.ok (⟨400, some (msgBody "Missing item ID")⟩, db) := by
  simp [lambda_handler, mkEvent_method, mkEvent_pathParameters, handleTry,
    isMethod, handlePUT, hasPathId_of_lacks pp h, translateError]

/-- C6, witness: a PUT with id-less path parameters and a non-string body. -/
theorem C6_witness :
    lambda_handler parseNone "g" dbEmpty
        (mkEvent "PUT" (some (VDict [("foo", VNull)])) (some (VInt 7))) =
      Except.ok (⟨400, some (msgBody "Missing item ID")⟩, dbEmpty) :=
  C6_put_missing_id parseNone "g" dbEmpty (some (VDict [("foo", VNull)]))
    (some (VInt 7)) (by decide)

/-- C7: an event without the `'httpMethod'` key makes `lambda_handler` raise
an uncaught `KeyError` — the subscript happens before the `try` block — so no
response envelope (no statusCode at all) is produced. -/
theorem C7_missing_method (parse : String → Option Value) (g : String)
    (db : DB) (d : List (String × Value))
    (h : alistHasKey d "httpMethod" = false) :
    lambda_handler parse g db (VDict d) =
      Except.error (PyError.KeyError "httpMethod") := by
  have hg : alistGet d "httpMethod" = none := by
    revert h
    unfold alistHasKey
    cases alistGet d "httpMethod" <;> simp
  simp [lambda_handler, dictGetKE, hg]

/-- C7, witness: an event carrying only `pathParameters`. -/
theorem C7_witness :
    lambda_handler parseNone "g" dbEmpty (VDict [("pathParameters", VDict [])]) =
      Except.error (PyError.KeyError "httpMethod") :=
  C7_missing_method parseNone "g" dbEmpty [("pathParameters", VDict [])]
    (by decide)

/-- A successful `update_item` always returns the built item, which carries
the `'id'` key and is in particular a non-empty (hence truthy) dict. -/
theorem update_item_ok (db : DB) (i body : Value)
    (item : List (String × Value)) (db' : DB)
    (h : update_item db i body = (Except.ok item, db')) :
    alistHasKey item "id" = true ∧ item.isEmpty = false := by
  cases i with
  | VNull => simp [update_item] at h
  | VBool b => simp [update_item] at h
  | VInt n => simp [update_item] at h
  | VList xs => simp [update_item] at h
  | VDict d => simp [update_item] at h
  | VStr s =>
      cases body with
      | VNull => simp [update_item] at h
      | VBool b => simp [update_item] at h
      | VInt n => simp [update_item] at h
      | VStr t => simp [update_item] at h
      | VList xs => simp [update_item] at h
      | VDict bd =>
          cases hb : alistHasKey bd "name" && alistHasKey bd "description" with
          | false => simp [update_item, validate_item, hb] at h
          | true =>
              simp [update_item, validate_item, hb] at h
              obtain ⟨h1, h2⟩ := h
              rw [← h1]
              exact ⟨mkItem_hasKey_id s bd, mkItem_isEmpty s bd⟩

/-- No outcome of the `PUT` arm, translated through the `except` clauses,
carries status 404: the defensive `if not item:` branch is unreachable. -/
theorem handlePUT_not_404 (parse : String → Option Value) (db : DB)
    (event pp : Value) :
    (translateError (handlePUT parse db event pp).1).statusCode ≠ 404 := by
  unfold handlePUT
  split
  · exact translateError_error_ne_404 _
  · simp [translateError]
  · split
    · exact translateError_error_ne_404 _
    · split
      · simp [translateError]
      · exact translateError_error_ne_404 _
      · split
        · exact translateError_error_ne_404 _
        · split
          · exact translateError_error_ne_404 _
          · rename_i heq
            have hne := (update_item_ok db _ _ _ _ heq).2
            simp [hne, translateError]

/-- C9: a successful `update_item` always yields a dict containing `'id'`
(hence non-empty), and consequently no PUT request is ever answered 404 by the
dispatcher — the absent-result-to-404 branch is dead code. -/
theorem C9_put_never_404 :
    (∀ (db : DB) (i body : Value) (item : List (String × Value)) (db' : DB),
      update_item db i body = (Except.ok item, db') →
      alistHasKey item "id" = true ∧ item.isEmpty = false) ∧
    (∀ (parse : String → Option Value) (g : String) (db : DB) (ev m : Value)
       (resp : Response) (db' : DB),
      dictGetKE ev "httpMethod" = Except.ok m →
      isMethod m "PUT" = true →
      lambda_handler parse g db ev = Except.ok (resp, db') →
      resp.statusCode ≠ 404) := by
  constructor
  · exact update_item_ok
  · intro parse g db ev m resp db' hm hput hres
    cases m with
    | VNull => simp [isMethod] at hput
    | VBool b => simp [isMethod] at hput
    | VInt n => simp [isMethod] at hput
    | VList xs => simp [isMethod] at hput
    | VDict d => simp [isMethod] at hput
    | VStr ms =>
        have hms : ms = "PUT" := by simpa [isMethod] using hput
        subst hms
        unfold lambda_handler at hres
        rw [hm] at hres
        simp [handleTry, isMethod] at hres
        obtain ⟨h1, h2⟩ := hres
        rw [← h1]
        exact handlePUT_not_404 parse db ev
          (dictGetD ev "pathParameters" (VDict []))

/-- C9, witness: a concrete successful update carries the id key, and a
concrete PUT response (here the 400 for an unparseable body) is not 404. -/
theorem C9_witness :
    (alistHasKey (mkItem "x" [("name", VStr "n"), ("description", VStr "d")])
        "id" = true ∧
     (mkItem "x" [("name", VStr "n"), ("description", VStr "d")]).isEmpty
        = false) ∧
    Response.statusCode ⟨400, some (msgBody "Invalid JSON")⟩ ≠ 404 :=
  ⟨C9_put_never_404.1 dbEmpty (VStr "x")
      (VDict [("name", VStr "n"), ("description", VStr "d")])
      (mkItem "x" [("name", VStr "n"), ("description", VStr "d")])
      (storePut dbEmpty (mkItem "x" [("name", VStr "n"), ("description", VStr "d")]))
      rfl,
   C9_put_never_404.2 parseNone "g" dbEmpty
      (mkEvent "PUT" (some (VDict [("id", VStr "x")])) (some (VStr "?")))
      (VStr "PUT") ⟨400, some (msgBody "Invalid JSON")⟩ dbEmpty rfl rfl rfl⟩

/-- C10: a POST whose event has no `'body'` key (a `KeyError` at the
subscript), or whose `'body'` value is not a text string (a `TypeError` from
`json.loads`), is answered 500 "Internal server error" — not 400
"Invalid JSON" — because neither failure is a `JSONDecodeError`. -/
theorem C10_post_bad_body_500 (parse : String → Option Value) (g : String)
    (db : DB) (pp : Option Value) :
    (lambda_handler parse g db (mkEvent "POST" pp none) =
      Except.ok (⟨500, some (msgBody "Internal server error")⟩, db)) ∧
    (∀ v, isStr v = false →
      lambda_handler parse g db (mkEvent "POST" pp (some v)) =
        Except.ok (⟨500, some (msgBody "Internal server error")⟩, db)) := by
  constructor
  · unfold lambda_handler
    rw [mkEvent_method]
    simp [handleTry, isMethod, handlePOST, mkEvent_body, translateError]
  · intro v hv
    unfold lambda_handler
    rw [mkEvent_method]
    cases v <;> simp [isStr] at hv <;>
      simp [handleTry, isMethod, handlePOST, mkEvent_body, json_loads,
        translateError]

/-- C10, witness: a POST with no body key, and a POST with a null body. -/
theorem C10_witness :
    lambda_handler parseNone "g" dbEmpty (mkEvent "POST" none none) =
      Except.ok (⟨500, some (msgBody "Internal server error")⟩, dbEmpty) ∧
    lambda_handler parseNone "g" dbEmpty (mkEvent "POST" none (some VNull)) =
      Except.ok (⟨500, some (msgBody "Internal server error")⟩, dbEmpty) :=
  ⟨(C10_post_bad_body_500 parseNone "g" dbEmpty none).1,
   (C10_post_bad_body_500 parseNone "g" dbEmpty none).2 VNull rfl⟩
